import Mathlib

/-!
Verification development for the knowzero backend agent pipeline.

Shallow embedding of the Python sources under `backend/app/` (agent/llm_utils.py,
agent/classifier.py, agent/nodes/route.py, agent/nodes/planner.py,
services/agent_streaming_service.py, services/document_service.py) as executable
Lean definitions, followed by theorems about the embedded code.

Conventions used throughout:
- Python strings that are scanned character-by-character are `List Char`;
  decoded JSON strings are `List Nat` (code points, since `\uXXXX` escapes may
  denote lone surrogates which are not valid `Char`s).
- Python `Optional[T]` values are `Option T`; Python truthiness is embedded by
  explicit `pyTruthy…` functions where the source uses `if x:` / `not x`.
- External LLM results are universally-quantified parameters: the code under
  test treats the LLM as a black box, so theorems hold for every possible reply.
- ASCII approximation: `str.strip` / regex `\s` / `str.lower` are embedded for
  the ASCII range (the only range exercised by the repository's patterns and
  by JSON syntax).
-/

namespace KnowZero

/-- Characters of a Lean string literal (helper for writing embedded constants). -/
def chars (s : String) : List Char := s.data

/-- Code points of a Lean string literal (decoded JSON strings are code-point lists). -/
def strCodes (s : String) : List Nat := s.data.map Char.toNat

/-- Python `str.strip()` / regex `\s` whitespace, ASCII subset. -/
def isWs (c : Char) : Bool :=
  c == ' ' || c == '\t' || c == '\n' || c == '\r' || c == '\x0b' || c == '\x0c'

/-- JSON whitespace as skipped by Python's `json` scanner (`[ \t\n\r]`). -/
def isJsonWs (c : Char) : Bool :=
  c == ' ' || c == '\t' || c == '\n' || c == '\r'

/-- Python `str.strip()` (both ends), ASCII whitespace. -/
def pyStrip (l : List Char) : List Char :=
  ((l.dropWhile isWs).reverse.dropWhile isWs).reverse

/-- Python `str.strip(ch)` for a single character argument. -/
def pyStripChar (ch : Char) (l : List Char) : List Char :=
  ((l.dropWhile (· == ch)).reverse.dropWhile (· == ch)).reverse

/-- Python `str.removeprefix`. -/
def pyRemovePrefix (p l : List Char) : List Char :=
  if p.isPrefixOf l then l.drop p.length else l

/-- ASCII lower-casing, as relevant for the `re.IGNORECASE` patterns of the source. -/
def asciiLower (c : Char) : Char :=
  if 'A' ≤ c && c ≤ 'Z' then Char.ofNat (c.toNat + 32) else c

/-- Case-insensitive prefix test (ASCII case folding). -/
def ciIsPrefix : List Char → List Char → Bool
  | [], _ => true
  | _ :: _, [] => false
  | a :: as, b :: bs => asciiLower a == asciiLower b && ciIsPrefix as bs

/-- `re.search` of a literal pattern: the needle occurs somewhere in the haystack. -/
def containsSub (needle : List Char) : List Char → Bool
  | [] => needle.isEmpty
  | c :: rest => needle.isPrefixOf (c :: rest) || containsSub needle rest

/-- Case-insensitive `re.search` of a literal pattern. -/
def ciContainsSub (needle : List Char) : List Char → Bool
  | [] => needle.isEmpty
  | c :: rest => ciIsPrefix needle (c :: rest) || ciContainsSub needle rest

/-!
## JSON values and Python's `json.loads`

`llm_utils.py` and `planner.py` parse LLM replies with `json.loads`. The value
domain is embedded as `Json`; floats are kept as their matched source text
(their numeric semantics is never needed by the code under test), and the
`NaN`/`Infinity` extensions accepted by Python's scanner are separate
constructors.
-/

inductive JsonNum where
  | int (i : Int)
  | float (text : List Char)
  | nan
  | inf (neg : Bool)
deriving DecidableEq, Repr

inductive Json where
  | null
  | bool (b : Bool)
  | num (n : JsonNum)
  | str (s : List Nat)
  | arr (elems : List Json)
  | obj (pairs : List (List Nat × Json))
deriving Inhabited

def isDigit (c : Char) : Bool := '0' ≤ c && c ≤ '9'

def digitsToNat (ds : List Char) : Nat := ds.foldl (fun a c => a * 10 + (c.toNat - 48)) 0

/-- Python json's NUMBER_RE: `(-?(?:0|[1-9]\d*))(\.\d+)?([eE][-+]?\d+)?`,
matched greedily at the start of the input; integers and floats are
distinguished exactly as `json.loads` does. -/
def matchNumber (cs : List Char) : Option (JsonNum × List Char) :=
  let neg : Bool := match cs with | '-' :: _ => true | _ => false
  let cs1 := match cs with | '-' :: t => t | _ => cs
  let ip? : Option (List Char × List Char) :=
    match cs1 with
    | '0' :: t => some (['0'], t)
    | c :: t =>
      if isDigit c && !(c == '0') then some (c :: t.takeWhile isDigit, t.dropWhile isDigit)
      else none
    | [] => none
  match ip? with
  | none => none
  | some (ip, rest1) =>
    let frac? : Option (List Char × List Char) :=
      match rest1 with
      | '.' :: t =>
        let ds := t.takeWhile isDigit
        if ds.isEmpty then none else some ('.' :: ds, t.dropWhile isDigit)
      | _ => none
    let fracTxt := match frac? with | some p => p.1 | none => []
    let rest2 := match frac? with | some p => p.2 | none => rest1
    let exp? : Option (List Char × List Char) :=
      match rest2 with
      | e :: t =>
        if e == 'e' || e == 'E' then
          let sgn := match t with | '+' :: _ => ['+'] | '-' :: _ => ['-'] | _ => []
          let t2 := match t with | '+' :: u => u | '-' :: u => u | _ => t
          let ds := t2.takeWhile isDigit
          if ds.isEmpty then none else some (e :: (sgn ++ ds), t2.dropWhile isDigit)
        else none
      | [] => none
    let expTxt := match exp? with | some p => p.1 | none => []
    let rest3 := match exp? with | some p => p.2 | none => rest2
    if fracTxt.isEmpty && expTxt.isEmpty then
      let v : Int := Int.ofNat (digitsToNat ip)
      some (.int (if neg then -v else v), rest1)
    else
      some (.float ((if neg then ['-'] else []) ++ ip ++ fracTxt ++ expTxt), rest3)

def hexDigit? (c : Char) : Option Nat :=
  if '0' ≤ c && c ≤ '9' then some (c.toNat - 48)
  else if 'a' ≤ c && c ≤ 'f' then some (c.toNat - 87)
  else if 'A' ≤ c && c ≤ 'F' then some (c.toNat - 55)
  else none

def hex4? : List Char → Option (Nat × List Char)
  | a :: b :: c :: d :: rest =>
    match hexDigit? a, hexDigit? b, hexDigit? c, hexDigit? d with
    | some x, some y, some z, some w => some (((x * 16 + y) * 16 + z) * 16 + w, rest)
    | _, _, _, _ => none
  | _ => none

def escCode (c : Char) : Option Nat :=
  if c == '"' then some 34 else if c == '\\' then some 92 else if c == '/' then some 47
  else if c == 'b' then some 8 else if c == 'f' then some 12 else if c == 'n' then some 10
  else if c == 'r' then some 13 else if c == 't' then some 9 else none

/-- Python json's strict `scanstring` after the opening quote: control characters
rejected, the eight simple escapes plus `\uXXXX` with surrogate-pair joining;
lone surrogates are kept (hence code points, not `Char`). Fuel-driven so that
it computes by `rfl`; one unit of fuel covers at least one input character,
so `length + 1` at the call site never runs out. -/
def parseJString : Nat → List Char → List Nat → Option (List Nat × List Char)
  | 0, _, _ => none
  | Nat.succ _, [], _ => none
  | Nat.succ fuel, c :: rest, acc =>
    if c == '"' then some (acc.reverse, rest)
    else if c == '\\' then
      match rest with
      | 'u' :: t =>
        match hex4? t with
        | none => none
        | some (u, t2) =>
          if 0xD800 ≤ u && u ≤ 0xDBFF then
            match t2 with
            | '\\' :: 'u' :: t3 =>
              match hex4? t3 with
              | some (u2, t4) =>
                if 0xDC00 ≤ u2 && u2 ≤ 0xDFFF then
                  parseJString fuel t4 ((0x10000 + (u - 0xD800) * 0x400 + (u2 - 0xDC00)) :: acc)
                else parseJString fuel t2 (u :: acc)
              | none => parseJString fuel t2 (u :: acc)
            | _ => parseJString fuel t2 (u :: acc)
          else parseJString fuel t2 (u :: acc)
      | e :: t =>
        match escCode e with
        | some n => parseJString fuel t (n :: acc)
        | none => none
      | [] => none
    else if c.toNat < 32 then none
    else parseJString fuel rest (c.toNat :: acc)

/-- Python `dict` insertion: an existing key keeps its position and gets the new
value, a new key is appended (this is how `dict(pairs)` resolves duplicates). -/
def dictInsertPy : List (List Nat × Json) → List Nat → Json → List (List Nat × Json)
  | [], k, v => [(k, v)]
  | (k', v') :: rest, k, v =>
    if k' = k then (k', v) :: rest else (k', v') :: dictInsertPy rest k v

mutual

/-- One JSON value, as Python's `py_make_scanner` dispatches: string, object,
array, the three literals, the number regex, then the `NaN`/`Infinity`
extensions; anything else fails. -/
def parseValue : Nat → List Char → Option (Json × List Char)
  | 0, _ => none
  | Nat.succ fuel, cs =>
    match cs with
    | [] => none
    | '"' :: rest =>
      match parseJString (rest.length + 1) rest [] with
      | some (s, r) => some (.str s, r)
      | none => none
    | '{' :: rest =>
      match rest.dropWhile isJsonWs with
      | '}' :: r => some (.obj [], r)
      | cs1 => parseObjectLoop fuel cs1 []
    | '[' :: rest =>
      match rest.dropWhile isJsonWs with
      | ']' :: r => some (.arr [], r)
      | cs1 => parseArrayLoop fuel cs1 []
    | cs' =>
      if (chars "null").isPrefixOf cs' then some (.null, cs'.drop 4)
      else if (chars "true").isPrefixOf cs' then some (.bool true, cs'.drop 4)
      else if (chars "false").isPrefixOf cs' then some (.bool false, cs'.drop 5)
      else
        match matchNumber cs' with
        | some (n, rest) => some (.num n, rest)
        | none =>
          if (chars "NaN").isPrefixOf cs' then some (.num .nan, cs'.drop 3)
          else if (chars "Infinity").isPrefixOf cs' then some (.num (.inf false), cs'.drop 8)
          else if (chars "-Infinity").isPrefixOf cs' then some (.num (.inf true), cs'.drop 9)
          else none

/-- Array elements after `[` (empty-array case already handled): value, then
`,` (continue) or `]` (done), whitespace-skipped, as `py JSONArray`. -/
def parseArrayLoop : Nat → List Char → List Json → Option (Json × List Char)
  | 0, _, _ => none
  | Nat.succ fuel, cs, acc =>
    match parseValue fuel cs with
    | none => none
    | some (v, r) =>
      match r.dropWhile isJsonWs with
      | ']' :: r2 => some (.arr (acc ++ [v]), r2)
      | ',' :: r2 => parseArrayLoop fuel (r2.dropWhile isJsonWs) (acc ++ [v])
      | _ => none

/-- Object members after `{` (empty-object case already handled): `"key"`, `:`,
value, then `,` or `}`, as `py JSONObject`; the member list becomes a dict. -/
def parseObjectLoop : Nat → List Char → List (List Nat × Json) → Option (Json × List Char)
  | 0, _, _ => none
  | Nat.succ fuel, cs, acc =>
    match cs with
    | '"' :: rest =>
      match parseJString (rest.length + 1) rest [] with
      | none => none
      | some (key, r1) =>
        match r1.dropWhile isJsonWs with
        | ':' :: r2 =>
          match parseValue fuel (r2.dropWhile isJsonWs) with
          | none => none
          | some (v, r3) =>
            let acc2 := dictInsertPy acc key v
            match r3.dropWhile isJsonWs with
            | '}' :: r4 => some (.obj acc2, r4)
            | ',' :: r4 => parseObjectLoop fuel (r4.dropWhile isJsonWs) acc2
            | _ => none
        | _ => none
    | _ => none

end

/-- Python `json.loads`: skip leading whitespace, one value, only whitespace may
remain ("Extra data" otherwise). The fuel bound `2·length + 4` dominates the
scanner's recursion depth (each nesting step consumes input). -/
def jsonLoads (cs : List Char) : Option Json :=
  match parseValue (2 * cs.length + 4) (cs.dropWhile isJsonWs) with
  | some (v, rest) => if (rest.dropWhile isJsonWs).isEmpty then some v else none
  | none => none

/-!
## `app/agent/llm_utils.py`
-/

/-- Whether this position (just after a comma) is followed by optional
whitespace and a closing bracket — the matched region of
`re.sub(r",(\s*[}\]])", r"\1", text)`. -/
def isTrailingCommaPos (rest : List Char) : Bool :=
  match rest.dropWhile isWs with
  | c :: _ => c == '}' || c == ']'
  | [] => false

/-- `_fix_trailing_commas`: delete each comma that is directly followed by
optional whitespace and `}` or `]`. Matches of Python's single-pass
left-to-right `re.sub` start at a comma and consume through the bracket;
since the consumed region contains no comma, resuming one character at a
time is equivalent. -/
def fixTrailingCommas : List Char → List Char
  | [] => []
  | c :: rest =>
    if c == ',' && isTrailingCommaPos rest then fixTrailingCommas rest
    else c :: fixTrailingCommas rest

/-- `_try_parse_json`: strip, repair trailing commas, `json.loads`; any failure
gives `None`. A parsed JSON `null` is Python's `None` and is therefore
indistinguishable from failure for every caller. -/
def tryParseJson (text : List Char) : Option Json :=
  match jsonLoads (fixTrailingCommas (pyStrip text)) with
  | some Json.null => none
  | some v => some v
  | none => none

/-- The three-backtick fence marker. -/
def fenceMarker : List Char := ['`', '`', '`']

/-- `\s*` then the literal fence inside the closing part `\n\s*` + fence of the
code-block regex: true iff some whitespace prefix is followed by the fence. -/
def closeTail : List Char → Bool
  | [] => false
  | c :: rest => fenceMarker.isPrefixOf (c :: rest) || (isWs c && closeTail rest)

/-- Whether the closing part `\n\s*` + fence matches at this position. -/
def closes : List Char → Bool
  | [] => false
  | c :: rest => c == '\n' && closeTail rest

/-- The lazy group `(.*?)` of the code-block regex (`re.DOTALL`): the shortest
prefix after which the closing part matches; its content is the group. -/
def lazyScan : List Char → Option (List Char)
  | [] => none
  | x :: xs =>
    if closes (x :: xs) then some []
    else match lazyScan xs with
      | some g => some (x :: g)
      | none => none

/-- The `\s*\n` after the optional tag, greedy with backtracking: try the
longest whitespace run first, require a newline at the split, then the lazy
body; on failure backtrack to a shorter run. -/
def tryWsNl (u : List Char) : Option (List Char) :=
  ((List.range ((u.takeWhile isWs).length + 1)).reverse).findSome?
    (fun k =>
      match u.drop k with
      | c :: body => if c == '\n' then lazyScan body else none
      | [] => none)

/-- The optional language tags of the code-block regex, in the alternation
order Python's engine tries them, the empty alternative last. -/
def fenceTags : List (List Char) := [chars "json", chars "python", chars "javascript", chars "js", chars "text", []]

/-- One attempt of `re.search(r"` + three backticks +
`(?:json|python|javascript|js|text)?\s*\n(.*?)\n\s*` + three backticks +
`", text, re.DOTALL | re.IGNORECASE)` anchored at the current position:
fence, optional case-insensitive tag (backtracking across alternatives),
`\s*\n`, the lazy group, and the closing part. -/
def matchFence (t : List Char) : Option (List Char) :=
  if fenceMarker.isPrefixOf t then
    let t1 := t.drop 3
    fenceTags.findSome? (fun tag => if ciIsPrefix tag t1 then tryWsNl (t1.drop tag.length) else none)
  else none

/-- `re.search` position scan: leftmost matching start position wins. -/
def ecbGo : List Char → Option (List Char)
  | [] => none
  | c :: rest =>
    match matchFence (c :: rest) with
    | some g => some g
    | none => ecbGo rest

/-- `_extract_from_code_block`: content of the first markdown code block. -/
def extractFromCodeBlock (t : List Char) : Option (List Char) := ecbGo t

/-- The scanning loop of `_extract_json_substring`, with the source's state
flags (`depth`, `in_string`, `escape_next`) and the first bracket at the head
of the input; brackets of both kinds are counted interchangeably, exactly as
the source does. -/
def ejsScan : List Char → Nat → Bool → Bool → List Char → Option (List Char)
  | [], _, _, _, _ => none
  | c :: rest, depth, inStr, esc, acc =>
    if esc then ejsScan rest depth inStr false (c :: acc)
    else if c == '\\' then ejsScan rest depth inStr true (c :: acc)
    else if c == '"' then ejsScan rest depth (!inStr) false (c :: acc)
    else if !inStr && (c == '{' || c == '[') then ejsScan rest (depth + 1) inStr false (c :: acc)
    else if !inStr && (c == '}' || c == ']') then
      if depth == 1 then some (c :: acc).reverse
      else ejsScan rest (depth - 1) inStr false (c :: acc)
    else ejsScan rest depth inStr false (c :: acc)

/-- `_extract_json_substring`: strip, find the first `{` or `[`, then
bracket-depth count (ignoring brackets inside double-quoted strings, honoring
backslash escapes) to the matching closer. -/
def extractJsonSubstring (t : List Char) : Option (List Char) :=
  let s := pyStrip t
  let pre := s.takeWhile (fun c => !(c == '{' || c == '['))
  match s.drop pre.length with
  | [] => none
  | c :: rest => ejsScan (c :: rest) 0 false false []

/-- The two errors `parse_llm_json_response` can raise. -/
inductive ParseErr where
  | emptyResponse
  | noJsonFound
deriving DecidableEq, Repr

/-- Strategy 2 of `parse_llm_json_response`: code-block extraction (skipped when
the extracted block is falsy, i.e. empty) plus repair-and-parse. -/
def strat2 (content : List Char) : Option Json :=
  match extractFromCodeBlock content with
  | some cb => if cb.isEmpty then none else tryParseJson cb
  | none => none

/-- Strategy 3 of `parse_llm_json_response`: bracket-counting substring
extraction plus repair-and-parse. -/
def strat3 (content : List Char) : Option Json :=
  match extractJsonSubstring content with
  | some s => if s.isEmpty then none else tryParseJson s
  | none => none

/-- `parse_llm_json_response`: empty input raises; otherwise the three-strategy
cascade, first success wins, all failing raises the "no JSON found" error. -/
def parse_llm_json_response (content : List Char) : Except ParseErr Json :=
  if content.isEmpty then .error .emptyResponse
  else
    match tryParseJson content with
    | some r => .ok r
    | none =>
      match strat2 content with
      | some r => .ok r
      | none =>
        match strat3 content with
        | some r => .ok r
        | none => .error .noJsonFound

/-!
## `app/agent/classifier.py`

The ten `STRONG_PATTERNS` regexes are embedded as boolean matchers with
`re.search` semantics (`re.IGNORECASE`, no `re.DOTALL`, so `.` never matches a
newline and `^` anchors only at the start of the string). The LLM tier is an
external black box: its reply, when consulted, is a parameter.
-/

/-- `b` matches after a (possibly empty) run of non-newline characters (`.*b`
without `re.DOTALL`). -/
def afterNoNl (b : List Char) : List Char → Bool
  | [] => b.isPrefixOf []
  | c :: rest => b.isPrefixOf (c :: rest) || (!(c == '\n') && afterNoNl b rest)

/-- `re.search` of `a.*b` (no DOTALL): some occurrence of `a` is followed, with
no intervening newline, by `b`. -/
def containsSeqNoNl (a b : List Char) : List Char → Bool
  | [] => a.isPrefixOf [] && afterNoNl b []
  | c :: rest =>
    (a.isPrefixOf (c :: rest) && afterNoNl b ((c :: rest).drop a.length)) ||
      containsSeqNoNl a b rest

/-- `re.search` with `^(alt|alt|…)`: without `re.MULTILINE` the anchor only
matches at position 0, so the pattern holds iff some alternative is a prefix. -/
def startsWithAny (alts : List (List Char)) (msg : List Char) : Bool :=
  alts.any (fun a => ciIsPrefix a msg)

/-- Pattern `我想学|我想了解|教教我|什么是|介绍.*一下` → new_topic. -/
def strongPat1 (m : List Char) : Bool :=
  containsSub (chars "我想学") m || containsSub (chars "我想了解") m ||
  containsSub (chars "教教我") m || containsSub (chars "什么是") m ||
  containsSeqNoNl (chars "介绍") (chars "一下") m

/-- Pattern `学习路径|学习建议|学习规划|路线图|roadmap|plan|规划.*学习` → plan. -/
def strongPat2 (m : List Char) : Bool :=
  containsSub (chars "学习路径") m || containsSub (chars "学习建议") m ||
  containsSub (chars "学习规划") m || containsSub (chars "路线图") m ||
  ciContainsSub (chars "roadmap") m || ciContainsSub (chars "plan") m ||
  containsSeqNoNl (chars "规划") (chars "学习") m

/-- Pattern `详细说说|深入讲讲|再详细点|展开讲讲` → follow_up. -/
def strongPat3 (m : List Char) : Bool :=
  containsSub (chars "详细说说") m || containsSub (chars "深入讲讲") m ||
  containsSub (chars "再详细点") m || containsSub (chars "展开讲讲") m

/-- Pattern `和.*的区别|和.*不同|对比一下|比较.*和` → comparison. -/
def strongPat4 (m : List Char) : Bool :=
  containsSeqNoNl (chars "和") (chars "的区别") m || containsSeqNoNl (chars "和") (chars "不同") m ||
  containsSub (chars "对比一下") m || containsSeqNoNl (chars "比较") (chars "和") m

/-- Pattern `怎么办|怎么做|如何实现|给我.*例子` → question_practical. -/
def strongPat5 (m : List Char) : Bool :=
  containsSub (chars "怎么办") m || containsSub (chars "怎么做") m ||
  containsSub (chars "如何实现") m || containsSeqNoNl (chars "给我") (chars "例子") m

/-- Pattern `太抽象|太简单|没看懂|不明白|详细点` → optimize_content. -/
def strongPat6 (m : List Char) : Bool :=
  containsSub (chars "太抽象") m || containsSub (chars "太简单") m ||
  containsSub (chars "没看懂") m || containsSub (chars "不明白") m ||
  containsSub (chars "详细点") m

/-- Pattern `^(你好|嗨|hello|hi|嗨嗨|早上好|晚上好|下午好|早安|晚安|哈喽|hey)` → chitchat. -/
def strongPat7 (m : List Char) : Bool :=
  startsWithAny [chars "你好", chars "嗨", chars "hello", chars "hi", chars "嗨嗨",
    chars "早上好", chars "晚上好", chars "下午好", chars "早安", chars "晚安",
    chars "哈喽", chars "hey"] m

/-- Pattern `^(谢谢|感谢|多谢|不客气|没关系|好的|行|可以|没问题)` → chitchat. -/
def strongPat8 (m : List Char) : Bool :=
  startsWithAny [chars "谢谢", chars "感谢", chars "多谢", chars "不客气", chars "没关系",
    chars "好的", chars "行", chars "可以", chars "没问题"] m

/-- Pattern `^(再见|拜拜|走了|回见|bye|goodbye)` → chitchat. -/
def strongPat9 (m : List Char) : Bool :=
  startsWithAny [chars "再见", chars "拜拜", chars "走了", chars "回见",
    chars "bye", chars "goodbye"] m

/-- Pattern `你是谁|你叫什么|介绍一下自己|你是什么|你能做什么` → chitchat. -/
def strongPat10 (m : List Char) : Bool :=
  containsSub (chars "你是谁") m || containsSub (chars "你叫什么") m ||
  containsSub (chars "介绍一下自己") m || containsSub (chars "你是什么") m ||
  containsSub (chars "你能做什么") m

/-- `IntentClassifier.STRONG_PATTERNS`, in dict insertion order (CPython dicts
iterate in insertion order, so the first matching pattern wins); each entry
carries its fixed `(intent_type, confidence)` pair. -/
def STRONG_PATTERNS : List ((List Char → Bool) × String × Rat) :=
  [(strongPat1, "new_topic", 1), (strongPat2, "plan", 1), (strongPat3, "follow_up", 1),
   (strongPat4, "comparison", 1), (strongPat5, "question_practical", 1),
   (strongPat6, "optimize_content", 1), (strongPat7, "chitchat", 1),
   (strongPat8, "chitchat", 1), (strongPat9, "chitchat", 1), (strongPat10, "chitchat", 1)]

/-- The Tier-1 loop of `classify`: the first pattern whose `re.search` matches. -/
def firstStrongMatch (msg : List Char) : Option (String × Rat) :=
  STRONG_PATTERNS.findSome? (fun p => if p.1 msg then some p.2 else none)

/-- Python `str.lower()` (ASCII range). -/
def lowerL (l : List Char) : List Char := l.map asciiLower

/-- Python `str.split()` with no argument: split on whitespace runs, no empties. -/
def pySplitWsAux : List Char → List Char → List (List Char)
  | [], acc => if acc.isEmpty then [] else [acc.reverse]
  | c :: rest, acc =>
    if isWs c then
      if acc.isEmpty then pySplitWsAux rest [] else acc.reverse :: pySplitWsAux rest []
    else pySplitWsAux rest (c :: acc)

def pySplitWs (l : List Char) : List (List Char) := pySplitWsAux l []

/-- `IntentClassifier.FUZZY_PATTERNS`, in dict insertion order. -/
def FUZZY_PATTERNS : List (List Char × String) :=
  [(chars "讲详细", "follow_up"), (chars "说清楚", "optimize_content"),
   (chars "举例", "optimize_content"), (chars "更深入", "follow_up"),
   (chars "补充", "optimize_content")]

/-- `IntentClassifier._fuzzy_match`: keyword as substring of the lower-cased
message, or as a whole whitespace-separated word. -/
def fuzzyMatch (message : List Char) : Option String :=
  let messageLower := lowerL message
  let words := pySplitWs messageLower
  FUZZY_PATTERNS.findSome? (fun p =>
    if containsSub p.1 messageLower || words.contains p.1 then some p.2 else none)

/-- `IntentClassifier._extract_target`: strip known conversational prefixes in
order (each applied to the running result), then bound the length. -/
def extractTarget (message : List Char) : List Char :=
  let prefixes := [chars "我想学", chars "我想了解", chars "什么是", chars "介绍一下", chars "详细说说"]
  let result := prefixes.foldl
    (fun r p => if p.isPrefixOf r then pyStrip (r.drop p.length) else r) message
  if result.isEmpty then message.take 100 else result.take 100

/-- The classification result dict (the keys common to all tiers; the LLM tier
adds advisory keys not used by the properties below). -/
structure ClassifyResult where
  intent_type : String
  confidence : Rat
  method : String
  processing_time_ms : Int
  target : List Char
deriving DecidableEq, Repr

/-- `IntentClassifier.classify`. The classifier's optional LLM handle is
`llm : Option α`; `tier3` is the (external, arbitrary) result of
`_llm_classify` for this message — the LLM itself is a black box — and
`use_llm` is `context.get("use_llm", True)`. -/
def classify {α : Type} (llm : Option α) (tier3 : ClassifyResult) (use_llm : Bool)
    (message : List Char) : ClassifyResult :=
  match firstStrongMatch message with
  | some (intentType, conf) =>
    { intent_type := intentType, confidence := conf, method := "strong_rule",
      processing_time_ms := 5, target := extractTarget message }
  | none =>
    match fuzzyMatch message with
    | some intentType =>
      { intent_type := intentType, confidence := 0.8, method := "fuzzy_rule",
        processing_time_ms := 10, target := extractTarget message }
    | none =>
      if llm.isSome && use_llm then tier3
      else
        { intent_type := "question", confidence := 0.5, method := "fallback",
          processing_time_ms := 1, target := message.take 50 }

/-!
## `app/agent/nodes/route.py`
-/

/-- The intent dict as the router reads it (`intent_type` always present,
`target` via `.get`). -/
structure IntentResult where
  intent_type : String
  target : Option String
deriving DecidableEq, Repr

/-- A routing decision dict: the fields of the `RouteDecision` Pydantic model
(the fast-path dicts leave `target`, `target_doc_id` and `confidence` absent,
embedded as `none`). -/
structure RouteDecision where
  action : String
  mode : String
  target : Option String := none
  target_doc_id : Option Int := none
  reasoning : String
  confidence : Option Rat := none
deriving DecidableEq, Repr

/-- The final `state["routing_decision"]`: the decision plus the `method` key. -/
structure RoutingDecision where
  action : String
  mode : String
  target : Option String
  target_doc_id : Option Int
  reasoning : String
  confidence : Option Rat
  method : String
deriving DecidableEq, Repr

def mkRouting (d : RouteDecision) (method : String) : RoutingDecision :=
  { action := d.action, mode := d.mode, target := d.target,
    target_doc_id := d.target_doc_id, reasoning := d.reasoning,
    confidence := d.confidence, method := method }

/-- The slice of `AgentState` read by `route_agent_node`. -/
structure RouteState where
  intent : Option IntentResult
  current_roadmap : Option Json
  current_doc_id : Option Int
  recent_docs : List String
  raw_message : String

/-- Python truthiness of an optional int (`None` and `0` are falsy). -/
def pyTruthyOptInt : Option Int → Bool
  | none => false
  | some i => !(i == 0)

/-- Python truthiness of an optional string (`None` and `""` are falsy). -/
def pyTruthyOptStr : Option String → Bool
  | none => false
  | some s => !s.isEmpty

/-- Whether the float literal denotes 0.0 (all mantissa digits zero). -/
def floatTextIsZero (text : List Char) : Bool :=
  (text.takeWhile (fun c => !(c == 'e' || c == 'E'))).all
    (fun c => c == '-' || c == '0' || c == '.')

/-- Python truthiness of a JSON value. -/
def jsonTruthy : Json → Bool
  | .null => false
  | .bool b => b
  | .num (.int i) => !(i == 0)
  | .num (.float t) => !floatTextIsZero t
  | .num .nan => true
  | .num (.inf _) => true
  | .str s => !s.isEmpty
  | .arr xs => !xs.isEmpty
  | .obj kvs => !kvs.isEmpty

/-- Python truthiness of an optional JSON value (`state.get(...)`). -/
def pyTruthyOptJson : Option Json → Bool
  | none => false
  | some j => jsonTruthy j

/-- The second component of an `OBVIOUS_DECISIONS` key: Python `False`, `None`
or a string — three distinct dict-key values. -/
inductive PyKey where
  | pyFalse
  | pyNone
  | pyStr (s : String)
deriving DecidableEq, Repr

/-- The `OBVIOUS_DECISIONS` rule table (note the `("new_topic", False)` key:
`False` is not `None`, so the `("new_topic", None)` lookup key built by
`_try_fast_route` never hits this entry). -/
def OBVIOUS_DECISIONS (key : String × PyKey) : Option RouteDecision :=
  if key = ("new_topic", .pyFalse) then
    some { action := "generate_new", mode := "standard",
           reasoning := "New topic without roadmap, generate standalone document" }
  else if key = ("follow_up", .pyStr "has_current_doc") then
    some { action := "update_doc", mode := "expand",
           reasoning := "Follow-up on current document" }
  else if key = ("follow_up", .pyNone) then
    some { action := "generate_new", mode := "standard",
           reasoning := "Follow-up without current doc, create new" }
  else if key = ("comparison", .pyNone) then
    some { action := "generate_new", mode := "comparison",
           reasoning := "Generate comparison document" }
  else if key = ("optimize_content", .pyNone) then
    some { action := "generate_new", mode := "explain_selection",
           reasoning := "Generate new document to explain selected content" }
  else none

/-- `_try_fast_route`: skip for a first topic (new_topic, falsy roadmap, falsy
recent_docs), otherwise look up the rule table and attach the intent's target
when it is truthy. -/
def tryFastRoute (intent_type : String) (current_doc_id : Option Int)
    (current_roadmap : Option Json) (st : RouteState) : Option RouteDecision :=
  if intent_type == "new_topic" && !pyTruthyOptJson current_roadmap && st.recent_docs.isEmpty then
    none
  else
    let key? : Option (String × PyKey) :=
      if intent_type == "follow_up" then
        some ("follow_up", if pyTruthyOptInt current_doc_id then .pyStr "has_current_doc" else .pyNone)
      else if intent_type == "new_topic" || intent_type == "comparison" ||
          intent_type == "optimize_content" then
        some (intent_type, .pyNone)
      else none
    match key? with
    | none => none
    | some key =>
      match OBVIOUS_DECISIONS key with
      | none => none
      | some d =>
        match st.intent with
        | some iv =>
          match iv.target with
          | some t => if t.isEmpty then some d else some { d with target := some t }
          | none => some d
        | none => some d

/-- `intent.get("intent_type", "question")` over `state.get("intent") or {}`. -/
def routeIntentType (st : RouteState) : String :=
  match st.intent with | some i => i.intent_type | none => "question"

/-- `route_agent_node`. The slow path's `_llm_route_decision` result (the
validated structured LLM output, or `_fallback_routing`'s dict when the call
failed) is the external parameter `llm_decision`; the two deterministic
post-decision overrides are applied to it exactly as the source does. -/
def route_agent_node (st : RouteState) (llm_decision : RouteDecision) : RoutingDecision :=
  let intent_type := routeIntentType st
  match tryFastRoute intent_type st.current_doc_id st.current_roadmap st with
  | some fast => mkRouting fast "rule"
  | none =>
    let d1 :=
      if intent_type == "new_topic" && !pyTruthyOptJson st.current_roadmap &&
          st.recent_docs.isEmpty then
        { llm_decision with
          action := "plan",
          mode := "roadmap_generate",
          reasoning := "首次学习新主题，自动生成学习路线图。原决策: " ++ llm_decision.reasoning }
      else llm_decision
    let d2 :=
      if d1.action == "navigate" && !pyTruthyOptInt d1.target_doc_id then
        { d1 with
          action := "generate_new",
          reasoning := "导航未指定目标文档ID，改为生成新文档。原决策: " ++ d1.reasoning }
      else d1
    mkRouting d2 "llm"

/-- The slice of `_build_decision_context`'s dict read by `_fallback_routing`. -/
structure DecisionContext where
  user_message : String
  detected_intent : Option IntentResult
  detected_target : Option String
  has_roadmap : Bool
deriving DecidableEq, Repr

/-- `_build_decision_context`, restricted to the fields above (`has_roadmap` is
`current_roadmap is not None`, `detected_target` is `intent.get("target")`). -/
def buildDecisionContext (st : RouteState) : DecisionContext :=
  { user_message := st.raw_message,
    detected_intent := st.intent,
    detected_target := st.intent.bind (·.target),
    has_roadmap := st.current_roadmap.isSome }

/-- `x or y or z` over the target candidates of `_fallback_routing`. -/
def pyOrTarget (a : Option String) (b : String) (c : String) : String :=
  if pyTruthyOptStr a then a.getD "" else if !b.isEmpty then b else c

/-- `_fallback_routing`: the deterministic rule used when the routing LLM call
fails. -/
def fallbackRouting (context : DecisionContext) : RouteDecision :=
  let intent_type := match context.detected_intent with
    | some i => i.intent_type
    | none => "question"
  let target := pyOrTarget context.detected_target context.user_message "新主题"
  if intent_type == "plan" && !context.has_roadmap then
    { action := "plan", mode := "roadmap_generate", target := some target,
      reasoning := "Fallback: plan intent without roadmap", confidence := some 0.5 }
  else
    { action := "generate_new",
      mode := if context.has_roadmap then "roadmap_learning" else "standard",
      target := some target,
      reasoning := "Fallback: default to generate_new", confidence := some 0.5 }

/-!
## `app/agent/nodes/planner.py`

Roadmaps are Python dicts in `state["roadmap"]`; they are embedded as `Json`
values uniformly across the three generation paths. The LLM is external: the
structured path's validated `RoadmapOutput` and the fallback path's raw reply
text are parameters.
-/

/-- First-occurrence lookup in an embedded dict (`d[k]` / `k in d`). -/
def objLookup : List (List Nat × Json) → List Nat → Option Json
  | [], _ => none
  | (k', v) :: rest, k => if k' = k then some v else objLookup rest k

/-- Python `dict.pop(k)` for a present key: remove the entry, keep order. -/
def dictRemove : List (List Nat × Json) → List Nat → List (List Nat × Json)
  | [], _ => []
  | (k', v) :: rest, k => if k' = k then rest else (k', v) :: dictRemove rest k

/-- The `RoadmapMilestone` Pydantic model. -/
structure RoadmapMilestone where
  id : Int
  title : String
  description : String
  topics : List String
deriving DecidableEq, Repr

/-- The `RoadmapOutput` Pydantic model (the structured-output schema). -/
structure RoadmapOutput where
  goal : String
  milestones : List RoadmapMilestone
  mermaid : String
deriving DecidableEq, Repr

/-- `m.model_dump()` of a milestone, in field-declaration order. -/
def milestoneToJson (m : RoadmapMilestone) : Json :=
  .obj [(strCodes "id", .num (.int m.id)), (strCodes "title", .str (strCodes m.title)),
        (strCodes "description", .str (strCodes m.description)),
        (strCodes "topics", .arr (m.topics.map (fun t => .str (strCodes t))))]

/-- The roadmap dict built by `_generate_roadmap` on the structured-output
success path: the LLM's milestones are dumped as-is, with no renumbering. -/
def generateRoadmapStructured (result : RoadmapOutput) : Json :=
  .obj [(strCodes "goal", .str (strCodes result.goal)),
        (strCodes "milestones", .arr (result.milestones.map milestoneToJson)),
        (strCodes "mermaid", .str (strCodes result.mermaid)),
        (strCodes "version", .num (.int 1))]

/-- The minimal placeholder roadmap synthesized when both generation paths
fail (`mermaid` is Python `None`). -/
def placeholderRoadmap (target : String) : Json :=
  .obj [(strCodes "goal", .str (strCodes target)),
        (strCodes "milestones", .arr
          [.obj [(strCodes "id", .num (.int 0)),
                 (strCodes "title", .str (strCodes "学习规划")),
                 (strCodes "description", .str (strCodes ("关于 " ++ target ++ " 的学习路径"))),
                 (strCodes "topics", .arr [])]]),
        (strCodes "mermaid", .null),
        (strCodes "version", .num (.int 1))]

/-- The `for i, milestone in enumerate(...): milestone["id"] = i` loop of the
fallback path; a non-dict milestone raises `TypeError` (embedded as `none`),
which the surrounding `except` turns into the placeholder. -/
def renumberMilestones : List Json → Nat → Option (List Json)
  | [], _ => some []
  | Json.obj kvs :: rest, i =>
    match renumberMilestones rest (i + 1) with
    | some ms => some (Json.obj (dictInsertPy kvs (strCodes "id") (Json.num (.int i))) :: ms)
    | none => none
  | _, _ => none

/-- The result dict of `_generate_roadmap_fallback`. -/
structure FallbackResult where
  roadmap : Json
  error : Option String

/-- `_generate_roadmap_fallback`, from the raw LLM reply text: markdown-fence
stripping, `json.loads`, field-name normalization (`learning_goal` → `goal`,
`fishbone_diagram` → `mermaid`), structural validation, forced contiguous
renumbering of milestone ids, version 1. Every exception route (parse
failure, validation `ValueError`, the `TypeError`/`AttributeError` raised by
the `in`/`pop`/item-assignment operations on a non-dict value) ends in the
placeholder roadmap plus an advisory error string. -/
def generateRoadmapFallback (respContent : List Char) (target : String) : FallbackResult :=
  let failed : FallbackResult :=
    { roadmap := placeholderRoadmap target,
      error := some "Failed to generate roadmap. Please try rephrasing your request." }
  let raw0 := pyStrip respContent
  let raw :=
    if fenceMarker.isPrefixOf raw0 then
      pyRemovePrefix (chars "JSON") (pyRemovePrefix (chars "json") (pyStripChar '`' raw0))
    else raw0
  match jsonLoads raw with
  | none => failed
  | some (Json.obj kvs0) =>
    let kvs1 :=
      match objLookup kvs0 (strCodes "learning_goal"), objLookup kvs0 (strCodes "goal") with
      | some v, none =>
        dictInsertPy (dictRemove kvs0 (strCodes "learning_goal")) (strCodes "goal") v
      | _, _ => kvs0
    let kvs2 :=
      match objLookup kvs1 (strCodes "fishbone_diagram"), objLookup kvs1 (strCodes "mermaid") with
      | some v, none =>
        dictInsertPy (dictRemove kvs1 (strCodes "fishbone_diagram")) (strCodes "mermaid") v
      | _, _ => kvs1
    if (objLookup kvs2 (strCodes "goal")).isNone then failed
    else
      match objLookup kvs2 (strCodes "milestones") with
      | some (Json.arr ms) =>
        match renumberMilestones ms 0 with
        | none => failed
        | some ms' =>
          let kvs3 := dictInsertPy kvs2 (strCodes "milestones") (Json.arr ms')
          let kvs4 := dictInsertPy kvs3 (strCodes "version") (Json.num (.int 1))
          { roadmap := Json.obj kvs4, error := none }
      | _ => failed
  | some _ => failed

/-- The milestone-id sequence of a roadmap dict: the value under `"id"` of each
entry of its `"milestones"` list (`none` for a non-dict entry or missing key). -/
def milestoneIdsOf (j : Json) : Option (List (Option Json)) :=
  match j with
  | .obj kvs =>
    match objLookup kvs (strCodes "milestones") with
    | some (.arr ms) =>
      some (ms.map (fun m => match m with | Json.obj mk => objLookup mk (strCodes "id") | _ => none))
    | _ => none
  | _ => none

/-!
## `app/services/agent_streaming_service.py` (chat-model event handlers)
-/

/-- The user-visible events the chat-model handlers can push. -/
inductive WsEvent where
  | nodeStart (name : String) (model : Option String)
  | nodeEnd (name : String)
  | documentToken (content : String)
deriving DecidableEq, Repr

/-- An `AIMessageChunk` as the handler reads it. -/
structure ModelChunk where
  content : String
deriving DecidableEq, Repr

/-- A LangGraph `on_chat_model_*` streaming event: the `metadata.langgraph_node`
tag and, for stream events, the optional chunk. -/
inductive ModelEvent where
  | chatModelStart (langgraph_node : Option String) (model : Option String)
  | chatModelStream (langgraph_node : Option String) (chunk : Option ModelChunk)
  | chatModelEnd (langgraph_node : Option String)
deriving DecidableEq, Repr

/-- `_on_chat_model_start` / `_on_chat_model_stream` / `_on_chat_model_end`:
the events each handler pushes to the WebSocket. `post_process` events return
early; a `document_token` is sent only when the chunk is truthy and
`metadata.get("langgraph_node", "")` equals `"content_agent"`. -/
def handleModelEvent : ModelEvent → List WsEvent
  | .chatModelStart node model =>
    if node = some "post_process" then [] else [.nodeStart "LLM" model]
  | .chatModelStream node chunk =>
    if node = some "post_process" then []
    else
      match chunk with
      | none => []
      | some ch =>
        if node.getD "" = "content_agent" then [.documentToken ch.content] else []
  | .chatModelEnd node =>
    if node = some "post_process" then [] else [.nodeEnd "LLM"]

/-!
## `_on_post_process_end` and the persistence modules (C9)
-/

/-- The module-level functions defined by `app/services/document_service.py`. -/
def documentServiceFunctions : List String :=
  ["create_document", "update_document", "get_document", "find_document_by_topic",
   "list_session_documents", "update_document_entities", "save_follow_ups"]

/-- The module-level functions defined by `app/services/entity_service.py`. -/
def entityServiceFunctions : List String :=
  ["find_entity_document", "_find_entity", "_find_link", "_ensure_entity",
   "_link_document", "upsert_entities"]

/-- A database write attempted by `_on_post_process_end`. -/
inductive PersistOp where
  | updateDocumentRoadmap (document_id : Int) (roadmap_id : Option Int) (milestone_id : Option Int)
  | upsertEntities (session_id : String) (entities : List String) (doc_id : Int)
  | updateDocumentEntities (document_id : Int) (entities : List String)
  | saveFollowUps (document_id : Int) (questions : List String)
deriving DecidableEq, Repr

/-- A log line emitted by `_on_post_process_end`. -/
inductive LogEntry where
  | warning (msg : String)
  | info (msg : String)
deriving DecidableEq, Repr

/-- Attribute lookup plus call on a service module: if the module defines the
function the write happens; otherwise the lookup raises `AttributeError`,
which the surrounding `except Exception` catches and logs. -/
def attemptCall (module : List String) (name : String) (op : PersistOp)
    (onFail : LogEntry) : List PersistOp × List LogEntry :=
  if name ∈ module then ([op], []) else ([], [onFail])

/-- Two service calls inside one `try`: the second runs only if the first
attribute lookup succeeded. -/
def attemptCall2 (m1 : List String) (n1 : String) (op1 : PersistOp)
    (m2 : List String) (n2 : String) (op2 : PersistOp)
    (onFail : LogEntry) : List PersistOp × List LogEntry :=
  if n1 ∈ m1 then
    if n2 ∈ m2 then ([op1, op2], []) else ([op1], [onFail])
  else ([], [onFail])

/-- The `output.get("document")` dict as `_on_post_process_end` reads it. -/
structure PostDoc where
  entities : List String
  roadmap_id : Option Int
  milestone_id : Option Int
deriving DecidableEq, Repr

instance : Inhabited PostDoc := ⟨{ entities := [], roadmap_id := none, milestone_id := none }⟩

/-- The `post_process` node's output dict slice. -/
structure PostOutput where
  document : Option PostDoc
  follow_up_questions : List String
deriving DecidableEq, Repr

/-- The client pushes at the end of `_on_post_process_end`. -/
inductive PostEvent where
  | sendEntities (document_id : Int) (entities : List String)
  | sendFollowUps (document_id : Int) (questions : List String)
deriving DecidableEq, Repr

/-- `_on_post_process_end`: early return without a truthy `ctx.doc_id`;
otherwise attempt the roadmap/milestone association (the lookup of
`document_service.update_document_roadmap` raises, is caught, and is logged as
a warning), then entities, then follow-ups, each in its own `try`, then push
the entity and follow-up events. Returns (writes performed, log lines,
events pushed). -/
def onPostProcessEnd (ctx_doc_id : Option Int) (output : PostOutput) :
    List PersistOp × List LogEntry × List PostEvent :=
  match ctx_doc_id with
  | none => ([], [.warning "post_process ended but no doc_id in context"], [])
  | some doc_id =>
    if doc_id = 0 then ([], [.warning "post_process ended but no doc_id in context"], [])
    else
      let doc_data := output.document.getD default
      let entities := doc_data.entities
      let follow_ups := output.follow_up_questions
      let roadmapPart :=
        if doc_data.roadmap_id ≠ none ∨ doc_data.milestone_id ≠ none then
          attemptCall documentServiceFunctions "update_document_roadmap"
            (.updateDocumentRoadmap doc_id doc_data.roadmap_id doc_data.milestone_id)
            (.warning "Failed to update document roadmap")
        else ([], [])
      let entityPart :=
        if !entities.isEmpty then
          attemptCall2 entityServiceFunctions "upsert_entities"
            (.upsertEntities "" entities doc_id)
            documentServiceFunctions "update_document_entities"
            (.updateDocumentEntities doc_id entities)
            (.warning "Failed to persist entities")
        else ([], [])
      let followUpPart :=
        if !follow_ups.isEmpty then
          attemptCall documentServiceFunctions "save_follow_ups"
            (.saveFollowUps doc_id follow_ups)
            (.warning "Failed to persist follow-ups")
        else ([], [])
      (roadmapPart.1 ++ entityPart.1 ++ followUpPart.1,
       roadmapPart.2 ++ entityPart.2 ++ followUpPart.2,
       [.sendEntities doc_id entities, .sendFollowUps doc_id follow_ups])

/-- Whether a write list contains a document–roadmap association write. -/
def noRoadmapAssociationWrite (ops : List PersistOp) : Bool :=
  ops.all (fun op => match op with | .updateDocumentRoadmap .. => false | _ => true)

/-!
## `get_classifier` (module-global singleton, C10)
-/

/-- `IntentClassifier.__init__`: the instance stores the optional LLM handle. -/
structure IntentClassifier (α : Type) where
  llm : Option α
deriving DecidableEq, Repr

/-- `get_classifier`, with the module-global `_classifier` threaded explicitly:
given the global's current value and the call's `llm` argument, return the
classifier the call yields and the global's new value. -/
def get_classifier {α : Type} (classifierGlobal : Option (IntentClassifier α))
    (llm : Option α) : IntentClassifier α × Option (IntentClassifier α) :=
  match classifierGlobal with
  | none =>
    let c : IntentClassifier α := { llm := llm }
    (c, some c)
  | some c => (c, some c)

/-!
## Discriminators and concrete instances used by the theorems below
-/

/-- Whether a JSON value is an object or an array. -/
def isObjOrArr : Json → Bool
  | .obj _ => true
  | .arr _ => true
  | _ => false

/-- Whether a JSON value is `null`. -/
def isNullJson : Json → Bool
  | .null => true
  | _ => false

/-- The closing part of a fenced block: newline then the fence (`"\n"` + three
backticks, written out as characters). -/
def endMark : List Char := ['\n', '`', '`', '`']

/-- A JSON payload wrapped in a `json`-tagged markdown fence: three backticks,
`json`, a newline, the payload, then `endMark` — i.e. the string
three-backticks + `json\n` + j + `\n` + three-backticks. -/
def fenceWrap (j : List Char) : List Char :=
  '`' :: '`' :: '`' :: 'j' :: 's' :: 'o' :: 'n' :: '\n' :: (j ++ endMark)

/-- The mode vocabulary named by the spec's data model. -/
def closedModeSet : List String :=
  ["standard", "roadmap_learning", "roadmap_generate", "roadmap_modify",
   "explain_selection", "comparison"]

/-- The modes the deterministic router paths can actually produce: the spec's
set plus the fast path's `"expand"`. -/
def ruleModeSet : List String := closedModeSet ++ ["expand"]

/-- A session state with a follow-up intent and a current document. -/
def followUpState : RouteState :=
  { intent := some { intent_type := "follow_up", target := none },
    current_roadmap := none, current_doc_id := some 7, recent_docs := [],
    raw_message := "再讲讲" }

/-- A first-topic session state (new_topic, no roadmap, no documents). -/
def firstTopicState : RouteState :=
  { intent := some { intent_type := "new_topic", target := some "Redis" },
    current_roadmap := none, current_doc_id := none, recent_docs := [],
    raw_message := "什么是 Redis" }

/-- A question-intent session state (slow path, no first-topic override). -/
def questionState : RouteState :=
  { intent := some { intent_type := "question", target := none },
    current_roadmap := none, current_doc_id := none, recent_docs := [],
    raw_message := "how" }

/-- An arbitrary slow-path LLM reply used where the theorem holds regardless. -/
def dummyLlmDecision : RouteDecision :=
  { action := "generate_new", mode := "standard", reasoning := "unused" }

/-- An LLM reply choosing navigate without a target document id. -/
def navNoTargetDecision : RouteDecision :=
  { action := "navigate", mode := "roadmap_learning", target := some "Redis",
    target_doc_id := none, reasoning := "nav to doc", confidence := some 0.9 }

/-- A Tier-3 LLM classification result used where the theorem holds regardless. -/
def dummyTier3 : ClassifyResult :=
  { intent_type := "question", confidence := 0.85, method := "llm",
    processing_time_ms := 100, target := [] }

/-- Scenario A's message. -/
def scenarioAMessage : List Char := chars "什么是 Redis"

/-- A structured-output LLM roadmap whose single milestone carries id 5. -/
def structuredExample : RoadmapOutput :=
  { goal := "G", milestones := [{ id := 5, title := "T", description := "D", topics := [] }],
    mermaid := "M" }

/-- A post-process output carrying a roadmap/milestone association. -/
def postOutputEx : PostOutput :=
  { document := some { entities := ["Redis"], roadmap_id := some 1, milestone_id := some 0 },
    follow_up_questions := ["Q1"] }

/-- Scenario D's bare JSON payload (one-element array with a trailing comma). -/
def scenDJson : List Char := chars "[\x7b\"question\": \"Q1?\", \"type\": \"basic\"\x7d,]"

/-- The value Scenario D's payload parses to after trailing-comma repair. -/
def scenDValue : Json :=
  .arr [.obj [(strCodes "question", .str (strCodes "Q1?")),
              (strCodes "type", .str (strCodes "basic"))]]

/-!
# Theorems
-/

/-- C10: `get_classifier` is a process-global singleton constructor: the first
call (global still unset) builds an `IntentClassifier` holding exactly the llm
argument it was given and installs it; every later call returns that same
instance and leaves the global unchanged, ignoring its own llm argument — so
Tier-3 availability is fixed by the first call for the process lifetime. -/
theorem get_classifier_singleton :
    ∀ (α : Type) (llm1 llm2 : Option α),
      get_classifier (α := α) none llm1 =
        ({ llm := llm1 }, some { llm := llm1 }) ∧
      ∀ c : IntentClassifier α, get_classifier (some c) llm2 = (c, some c) := by
  intro α llm1 llm2
  exact ⟨rfl, fun _ => rfl⟩

/-- C8: a `document_token` event is pushed only for a chat-model chunk whose
`langgraph_node` metadata is the content-generation node: any handler output
containing a document token came from a `chatModelStream` event tagged
`content_agent`, carrying exactly that chunk. -/
theorem document_token_only_from_content_agent :
    ∀ (ev : ModelEvent) (c : String),
      WsEvent.documentToken c ∈ handleModelEvent ev →
      ev = ModelEvent.chatModelStream (some "content_agent") (some { content := c }) := by
  intro ev c h
  cases ev with
  | chatModelStart node model =>
    simp only [handleModelEvent] at h
    split at h <;> simp_all
  | chatModelEnd node =>
    simp only [handleModelEvent] at h
    split at h <;> simp_all
  | chatModelStream node chunk =>
    simp only [handleModelEvent] at h
    split at h
    · simp_all
    · match chunk with
      | none => simp_all
      | some ch =>
        simp only at h
        split at h
        · rename_i hnode
          cases node with
          | none => simp at hnode
          | some s =>
            simp only [Option.getD] at hnode
            simp_all
        · simp_all

/-- C8 witness: a content-agent chunk instantiates the theorem. -/
theorem document_token_only_from_content_agent_witness :
    (ModelEvent.chatModelStream (some "content_agent") (some { content := "tok" })) =
      ModelEvent.chatModelStream (some "content_agent") (some { content := "tok" }) :=
  document_token_only_from_content_agent
    (ModelEvent.chatModelStream (some "content_agent") (some { content := "tok" })) "tok"
    (by decide)

/-- C9: for every post-processing completion whose document carries a roadmap
or milestone id, the association write always fails — `document_service`
defines no `update_document_roadmap` function, so the attribute lookup raises —
the exception is caught and logged as a warning, no association write reaches
the database, and the turn continues (the entity and follow-up events are
still pushed). -/
theorem post_process_roadmap_association_always_fails :
    ∀ (doc_id : Int) (output : PostOutput) (doc : PostDoc),
      doc_id ≠ 0 →
      output.document = some doc →
      (doc.roadmap_id ≠ none ∨ doc.milestone_id ≠ none) →
      "update_document_roadmap" ∉ documentServiceFunctions ∧
      noRoadmapAssociationWrite (onPostProcessEnd (some doc_id) output).1 = true ∧
      LogEntry.warning "Failed to update document roadmap" ∈
        (onPostProcessEnd (some doc_id) output).2.1 ∧
      (onPostProcessEnd (some doc_id) output).2.2 =
        [.sendEntities doc_id doc.entities, .sendFollowUps doc_id output.follow_up_questions] := by
  intro doc_id output doc hid hdoc hassoc
  refine ⟨by decide, ?_, ?_, ?_⟩ <;>
    (simp only [onPostProcessEnd, hdoc, if_neg hid, Option.getD_some, if_pos hassoc,
      attemptCall, attemptCall2, noRoadmapAssociationWrite, documentServiceFunctions,
      entityServiceFunctions]
     all_goals (split_ifs <;> simp_all))

/-- C9 witness: a concrete completion with both ids set. -/
theorem post_process_roadmap_association_always_fails_witness :
    "update_document_roadmap" ∉ documentServiceFunctions ∧
    noRoadmapAssociationWrite (onPostProcessEnd (some 3) postOutputEx).1 = true ∧
    LogEntry.warning "Failed to update document roadmap" ∈
      (onPostProcessEnd (some 3) postOutputEx).2.1 ∧
    (onPostProcessEnd (some 3) postOutputEx).2.2 =
      [.sendEntities 3 ["Redis"], .sendFollowUps 3 ["Q1"]] :=
  post_process_roadmap_association_always_fails 3 postOutputEx
    { entities := ["Redis"], roadmap_id := some 1, milestone_id := some 0 }
    (by decide) rfl (Or.inl (by decide))

/-- C1: for every turn whose classified intent is new_topic in a session with
no active roadmap and no prior documents, the fast rule path is skipped
(`_try_fast_route` returns `None`), and after the LLM-backed decision the
final routing decision has action `"plan"` and mode `"roadmap_generate"`, the
reasoning prefixed with an explanation — for every possible LLM (or fallback)
reply. -/
theorem first_topic_forces_roadmap_plan :
    ∀ (st : RouteState) (llm : RouteDecision),
      routeIntentType st = "new_topic" →
      st.current_roadmap = none →
      st.recent_docs = [] →
      tryFastRoute (routeIntentType st) st.current_doc_id st.current_roadmap st = none ∧
      route_agent_node st llm =
        { action := "plan", mode := "roadmap_generate", target := llm.target,
          target_doc_id := llm.target_doc_id,
          reasoning := "首次学习新主题，自动生成学习路线图。原决策: " ++ llm.reasoning,
          confidence := llm.confidence, method := "llm" } := by
  intro st llm hit hrm hrd
  have hfast :
      tryFastRoute (routeIntentType st) st.current_doc_id st.current_roadmap st = none := by
    simp [tryFastRoute, hit, hrm, hrd, pyTruthyOptJson]
  refine ⟨hfast, ?_⟩
  simp only [route_agent_node, hfast]
  simp [hit, hrm, hrd, pyTruthyOptJson, mkRouting]

/-- C1 witness: a concrete first-topic state and a concrete adversarial LLM
reply (navigate without target). -/
theorem first_topic_forces_roadmap_plan_witness :
    tryFastRoute (routeIntentType firstTopicState) firstTopicState.current_doc_id
        firstTopicState.current_roadmap firstTopicState = none ∧
    route_agent_node firstTopicState navNoTargetDecision =
      { action := "plan", mode := "roadmap_generate", target := some "Redis",
        target_doc_id := none,
        reasoning := "首次学习新主题，自动生成学习路线图。原决策: " ++ "nav to doc",
        confidence := some 0.9, method := "llm" } :=
  first_topic_forces_roadmap_plan firstTopicState navNoTargetDecision rfl rfl rfl

/-- C2 counterexample: when the LLM returns navigate without a target document
id on a first-topic turn, the first-topic override fires first and the final
decision is `plan`, not `generate_new`, and the LLM's mode is not kept — the
claim as stated fails at this input. -/
theorem navigate_downgrade_counterexample :
    navNoTargetDecision.action = "navigate" ∧
    navNoTargetDecision.target_doc_id = none ∧
    (route_agent_node firstTopicState navNoTargetDecision).action = "plan" ∧
    (route_agent_node firstTopicState navNoTargetDecision).action ≠ "generate_new" ∧
    (route_agent_node firstTopicState navNoTargetDecision).mode ≠ navNoTargetDecision.mode := by
  exact ⟨rfl, rfl, rfl, by decide, by decide⟩

/-- C2 amended: for every slow-path LLM decision with action navigate and no
target document id, provided the first-topic override does not fire, the final
decision has action `generate_new`, keeps the LLM's mode unchanged, and has
its reasoning prefixed with the explanatory note. -/
theorem navigate_downgrade_amended :
    ∀ (st : RouteState) (llm : RouteDecision),
      tryFastRoute (routeIntentType st) st.current_doc_id st.current_roadmap st = none →
      (routeIntentType st == "new_topic" && !pyTruthyOptJson st.current_roadmap &&
        st.recent_docs.isEmpty) = false →
      llm.action = "navigate" →
      llm.target_doc_id = none →
      route_agent_node st llm =
        { action := "generate_new", mode := llm.mode, target := llm.target,
          target_doc_id := none,
          reasoning := "导航未指定目标文档ID，改为生成新文档。原决策: " ++ llm.reasoning,
          confidence := llm.confidence, method := "llm" } := by
  intro st llm hfast hover hact hdoc
  simp only [route_agent_node, hfast]
  simp [hover, hact, hdoc, pyTruthyOptInt, mkRouting]

/-- C2 witness: a question-intent slow-path turn with a navigate-without-target
LLM reply. -/
theorem navigate_downgrade_amended_witness :
    route_agent_node questionState navNoTargetDecision =
      { action := "generate_new", mode := "roadmap_learning", target := some "Redis",
        target_doc_id := none,
        reasoning := "导航未指定目标文档ID，改为生成新文档。原决策: " ++ "nav to doc",
        confidence := some 0.9, method := "llm" } :=
  navigate_downgrade_amended questionState navNoTargetDecision rfl rfl rfl rfl

/-- C4 counterexample: the fast rule path's follow-up-with-current-document
entry produces mode `"expand"`, which is outside the spec's closed mode set. -/
theorem mode_closed_set_counterexample :
    (route_agent_node followUpState dummyLlmDecision).method = "rule" ∧
    (route_agent_node followUpState dummyLlmDecision).mode = "expand" ∧
    (route_agent_node followUpState dummyLlmDecision).mode ∉ closedModeSet := by
  exact ⟨rfl, rfl, by decide⟩

/-- Every entry of the `OBVIOUS_DECISIONS` table has one of four modes. -/
theorem obvious_mode (key : String × PyKey) (d : RouteDecision)
    (h : OBVIOUS_DECISIONS key = some d) :
    d.mode = "standard" ∨ d.mode = "expand" ∨ d.mode = "comparison" ∨
      d.mode = "explain_selection" := by
  simp only [OBVIOUS_DECISIONS] at h
  split_ifs at h <;> simp_all
  all_goals (subst h; simp)

/-- C4 amended: every decision the fast rule path produces, and every decision
the LLM-failure fallback produces, has a mode in the closed set enlarged with
`"expand"`; LLM-produced modes are passed through unvalidated and are not
constrained by the router. -/
theorem rule_decision_modes_amended :
    ∀ (it : String) (cdid : Option Int) (crm : Option Json) (st : RouteState)
      (ctx : DecisionContext),
      (∀ d : RouteDecision, tryFastRoute it cdid crm st = some d → d.mode ∈ ruleModeSet) ∧
      (fallbackRouting ctx).mode ∈ ruleModeSet := by
  intro it cdid crm st ctx
  constructor
  · intro d hd
    simp only [tryFastRoute] at hd
    split at hd
    · exact absurd hd (by simp)
    · split at hd
      · exact absurd hd (by simp)
      · rename_i key _
        split at hd
        · exact absurd hd (by simp)
        · rename_i d0 hd0
          have hmode := obvious_mode key d0 hd0
          have hdm : d.mode = d0.mode := by
            repeat' split at hd
            all_goals (simp only [Option.some.injEq] at hd; subst hd; simp)
          rcases hmode with h | h | h | h <;>
            simp [ruleModeSet, closedModeSet, hdm, h]
  · simp only [fallbackRouting]
    split
    · simp [ruleModeSet, closedModeSet]
    · by_cases hr : ctx.has_roadmap <;> simp [hr, ruleModeSet, closedModeSet]

/-- C4 witness: the comparison fast-path entry and a concrete fallback context
instantiate both conjuncts. -/
theorem rule_decision_modes_amended_witness :
    ({ action := "update_doc", mode := "expand", target := none, target_doc_id := none,
       reasoning := "Follow-up on current document", confidence := none } : RouteDecision).mode ∈
      ruleModeSet ∧
    (fallbackRouting (buildDecisionContext questionState)).mode ∈ ruleModeSet :=
  ⟨(rule_decision_modes_amended "follow_up" (some 7) none followUpState
      (buildDecisionContext questionState)).1 _ rfl,
   (rule_decision_modes_amended "follow_up" (some 7) none followUpState
      (buildDecisionContext questionState)).2⟩

/-- Every entry of the `STRONG_PATTERNS` table carries confidence exactly 1. -/
theorem strong_match_confidence (msg : List Char) (it : String) (conf : Rat)
    (h : firstStrongMatch msg = some (it, conf)) : conf = 1 := by
  simp only [firstStrongMatch, STRONG_PATTERNS, List.findSome?_cons, List.findSome?_nil] at h
  repeat' split at h
  all_goals simp_all

/-- C5: for every message matching a Tier-1 strong pattern (case-insensitive,
first pattern in table order wins), `classify` returns that pattern's fixed
intent type with confidence exactly 1 and method `"strong_rule"`, without
consulting the LLM and independently of whether an LLM handle is configured
or Tier 3 enabled; in particular "什么是 Redis" classifies as new_topic. -/
theorem tier1_strong_rule_classification :
    (∀ (msg : List Char) (it : String) (conf : Rat),
      firstStrongMatch msg = some (it, conf) →
      conf = 1 ∧
      ∀ (α β : Type) (llm : Option α) (llm' : Option β) (t3 t3' : ClassifyResult) (u u' : Bool),
        classify llm t3 u msg =
          { intent_type := it, confidence := conf, method := "strong_rule",
            processing_time_ms := 5, target := extractTarget msg } ∧
        classify llm t3 u msg = classify llm' t3' u' msg) ∧
    classify (α := Unit) none dummyTier3 true scenarioAMessage =
      { intent_type := "new_topic", confidence := 1, method := "strong_rule",
        processing_time_ms := 5, target := chars "Redis" } := by
  constructor
  · intro msg it conf h
    refine ⟨strong_match_confidence msg it conf h, ?_⟩
    intro α β llm llm' t3 t3' u u'
    constructor
    · simp only [classify, h]
    · simp only [classify, h]
  · rfl

/-- C5 witness: "hello" hits the Tier-1 chitchat pattern; the result is the
same with and without an LLM handle. -/
theorem tier1_strong_rule_classification_witness :
    (1 : Rat) = 1 ∧
    (classify (α := Unit) (some ()) dummyTier3 true (chars "hello") =
      { intent_type := "chitchat", confidence := 1, method := "strong_rule",
        processing_time_ms := 5, target := chars "hello" } ∧
     classify (α := Unit) (some ()) dummyTier3 true (chars "hello") =
       classify (α := Nat) none dummyTier3 false (chars "hello")) :=
  ⟨(tier1_strong_rule_classification.1 (chars "hello") "chitchat" 1 rfl).1,
   (tier1_strong_rule_classification.1 (chars "hello") "chitchat" 1 rfl).2
     Unit Nat (some ()) none dummyTier3 dummyTier3 true false⟩

/-- Looking up the key just inserted by `dictInsertPy` yields the new value. -/
theorem objLookup_dictInsertPy_self (kvs : List (List Nat × Json)) (k : List Nat) (v : Json) :
    objLookup (dictInsertPy kvs k v) k = some v := by
  induction kvs with
  | nil => simp [dictInsertPy, objLookup]
  | cons p rest ih =>
    obtain ⟨k0, v0⟩ := p
    by_cases hk : k0 = k <;> simp [dictInsertPy, objLookup, hk, ih]

/-- `dictInsertPy` does not disturb lookups of other keys. -/
theorem objLookup_dictInsertPy_other (kvs : List (List Nat × Json)) (k k' : List Nat)
    (v : Json) (h : k' ≠ k) :
    objLookup (dictInsertPy kvs k v) k' = objLookup kvs k' := by
  induction kvs with
  | nil =>
    have hne : ¬k = k' := fun hh => h hh.symm
    simp [dictInsertPy, objLookup, hne]
  | cons p rest ih =>
    obtain ⟨k0, v0⟩ := p
    by_cases hk : k0 = k
    · subst hk
      have hne : ¬k0 = k' := fun hh => h (hh.symm)
      simp [dictInsertPy, objLookup, hne]
    · simp [dictInsertPy, objLookup, hk, ih]

/-- The renumbering loop leaves every milestone's `"id"` equal to its position:
the ids of the result are the contiguous sequence starting at `i`. -/
theorem renumber_ids (ms : List Json) (i : Nat) (ms' : List Json)
    (h : renumberMilestones ms i = some ms') :
    ms'.map (fun m => match m with | Json.obj mk => objLookup mk (strCodes "id") | _ => none) =
      (List.range' i ms.length).map (fun j => some (Json.num (.int j))) := by
  induction ms generalizing i ms' with
  | nil =>
    simp only [renumberMilestones, Option.some.injEq] at h
    subst h
    simp
  | cons m rest ih =>
    cases m with
    | obj kvs =>
      simp only [renumberMilestones] at h
      cases hrec : renumberMilestones rest (i + 1) with
      | none => rw [hrec] at h; simp at h
      | some ms2 =>
        rw [hrec] at h
        simp only [Option.some.injEq] at h
        subst h
        simp [List.range'_succ, objLookup_dictInsertPy_self, ih _ _ hrec]
    | null => simp [renumberMilestones] at h
    | bool b => simp [renumberMilestones] at h
    | num n => simp [renumberMilestones] at h
    | str s => simp [renumberMilestones] at h
    | arr xs => simp [renumberMilestones] at h

/-- The `"id"` values of the milestones of a `model_dump`ped structured-output
roadmap are exactly the ids the LLM returned. -/
theorem structured_ids_eq (ms : List RoadmapMilestone) :
    (ms.map milestoneToJson).map
        (fun m => match m with | Json.obj mk => objLookup mk (strCodes "id") | _ => none) =
      ms.map (fun m => some (Json.num (.int m.id))) := by
  induction ms with
  | nil => rfl
  | cons m rest ih => simp [milestoneToJson, objLookup, ih]

/-- C3 counterexample: the structured-output generation path returns the LLM's
milestone ids untouched, so an LLM reply with a single milestone of id 5
yields a roadmap whose ids are not the contiguous sequence 0..N-1. -/
theorem milestone_ids_counterexample :
    milestoneIdsOf (generateRoadmapStructured structuredExample) =
      some [some (Json.num (.int 5))] ∧
    milestoneIdsOf (generateRoadmapStructured structuredExample) ≠
      some [some (Json.num (.int 0))] := by
  constructor
  · rfl
  · intro h
    rw [show milestoneIdsOf (generateRoadmapStructured structuredExample) =
      some [some (Json.num (.int 5))] from rfl] at h
    simp at h

/-- C3 amended: milestone ids form the contiguous 0-based sequence 0..N-1 after
roadmap generation through the manual-JSON fallback path (forced renumbering)
and in the placeholder roadmap, for every possible raw LLM reply; the
structured-output path (used by generation and modification) instead returns
the milestone ids exactly as the LLM produced them, with no renumbering. -/
theorem milestone_ids_amended :
    ∀ (respContent : List Char) (target : String) (result : RoadmapOutput),
      (∃ n, milestoneIdsOf (generateRoadmapFallback respContent target).roadmap =
        some ((List.range n).map (fun i => some (Json.num (.int i))))) ∧
      milestoneIdsOf (generateRoadmapStructured result) =
        some (result.milestones.map (fun m => some (Json.num (.int m.id)))) := by
  intro resp target result
  constructor
  · simp only [generateRoadmapFallback]
    split
    · exact ⟨1, rfl⟩
    · split
      · exact ⟨1, rfl⟩
      · split
        · rename_i ms hlook
          split
          · exact ⟨1, rfl⟩
          · rename_i ms' hren
            refine ⟨ms.length, ?_⟩
            simp only [milestoneIdsOf]
            rw [objLookup_dictInsertPy_other _ (strCodes "version") (strCodes "milestones") _
                (by decide),
              objLookup_dictInsertPy_self]
            have h2 : ms'.map
                (fun m => match m with | Json.obj mk => objLookup mk (strCodes "id") | _ => none) =
                (List.range ms.length).map (fun j => some (Json.num (.int j))) := by
              rw [renumber_ids ms 0 ms' hren, List.range_eq_range']
            exact congrArg some h2
        · exact ⟨1, rfl⟩
    · exact ⟨1, rfl⟩
  · have hlook : milestoneIdsOf (generateRoadmapStructured result) =
        some ((result.milestones.map milestoneToJson).map
          (fun m => match m with | Json.obj mk => objLookup mk (strCodes "id") | _ => none)) := by
      simp +decide [generateRoadmapStructured, milestoneIdsOf, objLookup]
    rw [hlook, structured_ids_eq]

/-- `_try_parse_json` never reports a JSON `null`: Python returns `None` for it,
which every caller reads as failure. -/
theorem tryParseJson_not_null (t : List Char) : tryParseJson t ≠ some Json.null := by
  cases h : jsonLoads (fixTrailingCommas (pyStrip t)) with
  | none => simp [tryParseJson, h]
  | some v => cases v <;> simp [tryParseJson, h]

/-- Strategy 2 inherits `_try_parse_json`'s never-null property. -/
theorem strat2_not_null (content : List Char) : strat2 content ≠ some Json.null := by
  simp only [strat2]
  cases h : extractFromCodeBlock content with
  | none => simp
  | some cb =>
    by_cases hcb : cb.isEmpty <;> simp [hcb, tryParseJson_not_null cb]

/-- Strategy 3 inherits `_try_parse_json`'s never-null property. -/
theorem strat3_not_null (content : List Char) : strat3 content ≠ some Json.null := by
  simp only [strat3]
  cases h : extractJsonSubstring content with
  | none => simp
  | some s =>
    by_cases hs : s.isEmpty <;> simp [hs, tryParseJson_not_null s]

/-- C7 amended: `parse_llm_json_response` either returns some non-null JSON
value — of any kind: object, array, string, number or boolean, not only
object/array — or raises; it raises the distinct empty-input error exactly on
empty input, and the "no JSON found" error exactly when the input is nonempty
and none of the three strategies recovers a (non-null) JSON value. -/
theorem parse_llm_json_response_contract :
    ∀ content : List Char,
      (∀ v, parse_llm_json_response content = .ok v → isNullJson v = false) ∧
      (parse_llm_json_response content = .error .emptyResponse ↔ content = []) ∧
      (parse_llm_json_response content = .error .noJsonFound ↔
        content ≠ [] ∧ tryParseJson content = none ∧ strat2 content = none ∧
          strat3 content = none) := by
  intro content
  by_cases hemp : content = []
  · subst hemp
    refine ⟨?_, by simp [parse_llm_json_response], by simp [parse_llm_json_response]⟩
    intro v hv
    simp [parse_llm_json_response] at hv
  · have hne : content.isEmpty = false := by
      cases content with
      | nil => exact absurd rfl hemp
      | cons c rest => rfl
    have notNull : ∀ w : Json, w ≠ Json.null → isNullJson w = false := by
      intro w hw; cases w <;> simp_all [isNullJson]
    cases h1 : tryParseJson content with
    | some v1 =>
      have hps : parse_llm_json_response content = .ok v1 := by
        simp [parse_llm_json_response, hne, h1]
      refine ⟨?_, by simp [hps, hemp], by simp [hps, h1]⟩
      intro v hv
      rw [hps] at hv
      obtain rfl : v1 = v := by simpa using hv
      exact notNull v1 (fun hh => tryParseJson_not_null content (hh ▸ h1))
    | none =>
      cases h2 : strat2 content with
      | some v2 =>
        have hps : parse_llm_json_response content = .ok v2 := by
          simp [parse_llm_json_response, hne, h1, h2]
        refine ⟨?_, by simp [hps, hemp], by simp [hps, h2]⟩
        intro v hv
        rw [hps] at hv
        obtain rfl : v2 = v := by simpa using hv
        exact notNull v2 (fun hh => strat2_not_null content (hh ▸ h2))
      | none =>
        cases h3 : strat3 content with
        | some v3 =>
          have hps : parse_llm_json_response content = .ok v3 := by
            simp [parse_llm_json_response, hne, h1, h2, h3]
          refine ⟨?_, by simp [hps, hemp], by simp [hps, h3]⟩
          intro v hv
          rw [hps] at hv
          obtain rfl : v3 = v := by simpa using hv
          exact notNull v3 (fun hh => strat3_not_null content (hh ▸ h3))
        | none =>
          have hps : parse_llm_json_response content = .error .noJsonFound := by
            simp [parse_llm_json_response, hne, h1, h2, h3]
          refine ⟨?_, by simp [hps, hemp], by simp [hps, hemp, h1, h2, h3]⟩
          intro v hv
          rw [hps] at hv
          exact absurd hv (by simp)

/-- C7 counterexample: the cascade happily returns a bare number — `"42"`
parses to the JSON number 42, which is neither an object nor an array, and no
error is raised although no object or array can be recovered. -/
theorem parse_llm_json_response_counterexample :
    parse_llm_json_response (chars "42") = .ok (Json.num (.int 42)) ∧
    isObjOrArr (Json.num (.int 42)) = false :=
  ⟨rfl, rfl⟩

/-- C7 witness: the contract instantiated at the input `"42"`. -/
theorem parse_llm_json_response_contract_witness :
    isNullJson (Json.num (.int 42)) = false :=
  (parse_llm_json_response_contract (chars "42")).1 (Json.num (.int 42)) rfl

/-!
### C6: the fenced-JSON lemma chain

Strategy 1 always fails on fence-wrapped input (a backtick can start no JSON
value), and the code-block regex recovers exactly the payload whenever the
payload is backtick-free, nonempty, and has no leading/trailing whitespace.
-/

/-- No JSON value starts with a backtick: the scanner rejects it at once. -/
theorem parseValue_backtick (fuel : Nat) (t : List Char) :
    parseValue fuel ('`' :: t) = none := by
  cases fuel with
  | zero => rfl
  | succ f => rfl

/-- `json.loads` fails on any input whose first character is a backtick. -/
theorem jsonLoads_backtick (t : List Char) : jsonLoads ('`' :: t) = none := by
  have hdw : ('`' :: t).dropWhile isJsonWs = '`' :: t := by
    simp [List.dropWhile_cons, isJsonWs]
  simp [jsonLoads, hdw, parseValue_backtick]

/-- The comma-repair pass keeps a non-comma head character in place. -/
theorem fixTrailingCommas_cons_ne (c : Char) (t : List Char) (h : (c == ',') = false) :
    fixTrailingCommas (c :: t) = c :: fixTrailingCommas t := by
  simp [fixTrailingCommas, h]

/-- `str.strip()` leaves fence-wrapped input unchanged (both ends are
backticks, not whitespace). -/
theorem pyStrip_fence (j : List Char) : pyStrip (fenceWrap j) = fenceWrap j := by
  simp [pyStrip, fenceWrap, endMark, List.dropWhile_cons, isWs, List.reverse_append]

/-- Strategy 1 of the cascade fails on fence-wrapped input. -/
theorem tryParseJson_fence (j : List Char) : tryParseJson (fenceWrap j) = none := by
  rw [show tryParseJson (fenceWrap j) =
      (match jsonLoads (fixTrailingCommas (pyStrip (fenceWrap j))) with
        | some Json.null => none
        | some v => some v
        | none => none) from rfl]
  rw [pyStrip_fence]
  rw [show fenceWrap j =
      '`' :: ('`' :: '`' :: 'j' :: 's' :: 'o' :: 'n' :: '\n' :: (j ++ endMark)) from rfl]
  rw [fixTrailingCommas_cons_ne '`' _ (by decide)]
  rw [jsonLoads_backtick]

/-- The closing-part tail matcher on a backtick-free block followed by
`endMark` succeeds iff the whole block is whitespace. -/
theorem closeTail_append (t' : List Char) (hb : '`' ∉ t') :
    closeTail (t' ++ endMark) = t'.all isWs := by
  induction t' with
  | nil => rfl
  | cons c t ih =>
    have hc : ¬c = '`' := fun hh => hb (hh ▸ List.mem_cons_self c t)
    have hb' : '`' ∉ t := fun hm => hb (List.mem_cons_of_mem c hm)
    have hpre : fenceMarker.isPrefixOf (c :: (t ++ endMark)) = false := by
      have : ('`' == c) = false := beq_eq_false_iff_ne.mpr (fun hh => hc hh.symm)
      simp [fenceMarker, List.isPrefixOf, this]
    simp [closeTail, hpre, ih hb', List.all_cons]

/-- No nonempty suffix of a backtick-free payload with non-whitespace last
character can satisfy the closing part of the regex. -/
theorem closes_suffix_false (j : List Char) (hb : '`' ∉ j)
    (hlast : isWs (j.getLastD 'a') = false) :
    ∀ t, t <:+ j → t ≠ [] → closes (t ++ endMark) = false := by
  intro t hsuf hne
  obtain ⟨pre, hpre⟩ := hsuf
  cases t with
  | nil => exact absurd rfl hne
  | cons c t' =>
    by_cases hc : c = '\n'
    · subst hc
      have hb' : '`' ∉ t' := by
        intro hm
        exact hb (hpre ▸ List.mem_append_right pre (List.mem_cons_of_mem _ hm))
      rcases eq_or_ne t' [] with rfl | hne'
      · exfalso
        have hj : j.getLastD 'a' = '\n' := by
          rw [← hpre]; exact List.getLastD_concat _ _ _
        rw [hj] at hlast
        exact absurd hlast (by decide)
      · have hall : t'.all isWs = false := by
          by_contra hALL
          have hall' : t'.all isWs = true := by
            cases hA : t'.all isWs
            · exact absurd hA hALL
            · rfl
          have hlastT : t'.getLast? = some (t'.getLast hne') :=
            List.getLast?_eq_getLast_of_ne_nil hne'
          have hjlast : j.getLast? = some (t'.getLast hne') := by
            rw [← hpre, show pre ++ '\n' :: t' = (pre ++ ['\n']) ++ t' by simp,
              List.getLast?_append, hlastT]
            rfl
          have hmem : t'.getLast hne' ∈ t' := List.getLast_mem hne'
          have hwsLast : isWs (t'.getLast hne') = true :=
            List.all_eq_true.mp hall' _ hmem
          have : j.getLastD 'a' = t'.getLast hne' := by
            rw [List.getLastD_eq_getLast?, hjlast]; rfl
          rw [this, hwsLast] at hlast
          exact absurd hlast (by simp)
        simp [closes, closeTail_append t' hb', hall]
    · have : (c == '\n') = false := beq_eq_false_iff_ne.mpr hc
      simp [closes, this]

/-- The lazy group stops exactly at the end of a block none of whose nonempty
suffixes closes the fence early. -/
theorem lazyScan_append (s : List Char)
    (h : ∀ t, t <:+ s → t ≠ [] → closes (t ++ endMark) = false) :
    lazyScan (s ++ endMark) = some s := by
  induction s with
  | nil => rfl
  | cons x xs ih =>
    have hcl : closes ((x :: xs) ++ endMark) = false :=
      h (x :: xs) (List.suffix_refl _) (by simp)
    have ih' := ih (fun t ht htne => h t (ht.trans (List.suffix_cons x xs)) htne)
    simp only [List.cons_append] at hcl ⊢
    simp [lazyScan, hcl, ih']

/-- The lazy group of the code-block regex recovers exactly the payload. -/
theorem lazyScan_fence (j : List Char) (hb : '`' ∉ j)
    (hlast : isWs (j.getLastD 'a') = false) :
    lazyScan (j ++ endMark) = some j :=
  lazyScan_append j (closes_suffix_false j hb hlast)

/-- The `\s*\n` + lazy-group part of the regex, applied after the `json` tag,
recovers exactly the payload. -/
theorem tryWsNl_fence (j : List Char) (hne : j ≠ []) (hb : '`' ∉ j)
    (hhead : isWs (j.headD 'a') = false)
    (hlast : isWs (j.getLastD 'a') = false) :
    tryWsNl ('\n' :: (j ++ endMark)) = some j := by
  obtain ⟨h0, t0, rfl⟩ : ∃ h0 t0, j = h0 :: t0 := by
    cases j with
    | nil => exact absurd rfl hne
    | cons a b => exact ⟨a, b, rfl⟩
  have hh : isWs h0 = false := hhead
  have hnl : isWs '\n' = true := by decide
  have htake : (('\n' :: ((h0 :: t0) ++ endMark)).takeWhile isWs) = ['\n'] := by
    simp [List.takeWhile_cons, hh, hnl]
  have hcne : ¬h0 = '\n' := by
    intro hh0
    rw [hh0] at hh
    exact absurd hh (by decide)
  have hl := lazyScan_fence (h0 :: t0) hb hlast
  simp only [List.cons_append] at hl
  simp only [tryWsNl, htake]
  have hrange : (List.range (List.length ['\n'] + 1)).reverse = [1, 0] := by decide
  rw [hrange]
  simp [List.findSome?_cons, hcne, hl]

/-- The anchored regex attempt at position 0 of the fence-wrapped input
matches, with exactly the payload as the group. -/
theorem matchFence_fence (j : List Char) (hne : j ≠ []) (hb : '`' ∉ j)
    (hhead : isWs (j.headD 'a') = false)
    (hlast : isWs (j.getLastD 'a') = false) :
    matchFence (fenceWrap j) = some j := by
  have h1 : fenceMarker.isPrefixOf (fenceWrap j) = true := by
    simp [fenceMarker, fenceWrap, List.isPrefixOf]
  have hdrop : (fenceWrap j).drop 3 = 'j' :: 's' :: 'o' :: 'n' :: '\n' :: (j ++ endMark) := rfl
  have h2 : ciIsPrefix (chars "json") ('j' :: 's' :: 'o' :: 'n' :: '\n' :: (j ++ endMark)) = true := by
    simp [chars, ciIsPrefix, asciiLower]
  simp only [matchFence, h1, if_true, hdrop, fenceTags, List.findSome?_cons, h2, if_pos]
  rw [show ('j' :: 's' :: 'o' :: 'n' :: '\n' :: (j ++ endMark)).drop (chars "json").length =
    '\n' :: (j ++ endMark) from rfl]
  rw [tryWsNl_fence j hne hb hhead hlast]

/-- `_extract_from_code_block` on fence-wrapped input returns the payload. -/
theorem extract_fence (j : List Char) (hne : j ≠ []) (hb : '`' ∉ j)
    (hhead : isWs (j.headD 'a') = false)
    (hlast : isWs (j.getLastD 'a') = false) :
    extractFromCodeBlock (fenceWrap j) = some j := by
  rw [show extractFromCodeBlock (fenceWrap j) =
      (match matchFence (fenceWrap j) with
        | some g => some g
        | none => ecbGo ('`' :: '`' :: 'j' :: 's' :: 'o' :: 'n' :: '\n' :: (j ++ endMark))) from rfl]
  rw [matchFence_fence j hne hb hhead hlast]

/-- C6: for every nonempty, backtick-free JSON payload with no leading or
trailing whitespace — in particular any payload with a trailing comma before
its closing bracket — wrapping it in a `json`-tagged fenced code block and
running `parse_llm_json_response` returns exactly the value obtained by
repairing and parsing the bare payload (strategy 1 always fails on the fence,
and the code-block strategy recovers the payload verbatim). -/
theorem fenced_json_same_as_bare (j : List Char) (v : Json)
    (hne : j ≠ []) (hb : '`' ∉ j)
    (hhead : isWs (j.headD 'a') = false)
    (hlast : isWs (j.getLastD 'a') = false)
    (hparse : tryParseJson j = some v) :
    parse_llm_json_response (fenceWrap j) = .ok v := by
  have hfe : (fenceWrap j).isEmpty = false := rfl
  have hjne : j.isEmpty = false := by
    cases j with
    | nil => exact absurd rfl hne
    | cons a b => rfl
  have hs2 : strat2 (fenceWrap j) = some v := by
    simp only [strat2, extract_fence j hne hb hhead hlast, hjne]
    simp [hparse]
  simp [parse_llm_json_response, hfe, tryParseJson_fence, hs2]

/-- C6 witness: Scenario D — the fenced one-element array with a trailing
comma parses to the repaired array; the fence-wrapped payload is literally the
scenario's input string. -/
theorem fenced_json_same_as_bare_witness :
    parse_llm_json_response (fenceWrap scenDJson) = .ok scenDValue ∧
    fenceWrap scenDJson =
      chars "```json\n[\x7b\"question\": \"Q1?\", \"type\": \"basic\"\x7d,]\n```" :=
  ⟨fenced_json_same_as_bare scenDJson scenDValue (by decide) (by decide) (by decide)
    (by decide) rfl,
   by decide⟩

end KnowZero
